import Mathlib

/-!
Verification of the sync-translate pipeline node
(`sync_translate_node.py`): a shallow embedding of the pipeline's data
model and operations, with theorems about its specified behaviour.

External collaborators (HTTP transfer, the moviepy decoder, the OpenAI /
ElevenLabs / sync.so providers, the uguu.se upload host, the system
clock and the uuid generator) are modelled by an `Env` oracle that fixes
the outcome of each external call; the pipeline itself is translated
statement by statement from the source, and every externally visible
side effect is recorded in an event trace.
-/

namespace SyncTranslate

/-- Raw byte payloads moved over HTTP are abstracted as lists of bytes. -/
abbrev Bytes := List Nat

/-! ## Data model: the `BabelfishArgs` dataclass -/

/-- The `BabelfishArgs` dataclass: the input bundle for one pipeline
run (credentials, URLs, language/voice/model choices, segment window,
poll interval, temp directory).  `segment_start` / `segment_end` are
Python floats used only as opaque pass-through values (no arithmetic is
ever performed on them), modelled as rationals; `tmp_dir` is a path
string. -/
structure BabelfishArgs where
  sync_api_key : String
  openai_api_key : String
  eleven_api_key : String
  video_url : String
  target_language : String
  source_language : String := ""
  output_json_path : String := ""
  lipsync_model : String := "lipsync-2"
  tts_model : String := "eleven_multilingual_v2"
  gpt_model : String := "gpt-3.5-turbo"
  transcription_model : String := "whisper-1"
  voice_id : String := ""
  sync_mode : String := "bounce"
  segment_start : Rat := -1
  segment_end : Rat := -1
  poll_interval : Nat := 10
  tmp_dir : String := "/tmp/sync_translate"
  deriving Repr, DecidableEq

/-! ## Path helpers (`pathlib.Path` operations used by the code) -/

/-- Split a character list on `/`. -/
def splitOnSlash (l : List Char) : List (List Char) :=
  l.foldr
    (fun c acc =>
      if c == '/' then [] :: acc
      else (c :: acc.headD []) :: acc.tail)
    [[]]

/-- `Path(url).name`: the last nonempty `/`-separated component of a
path or URL (used by `_download` to derive the local file name from the
URL, and to take the basename of the extracted wav). -/
def pathName (url : String) : String :=
  String.mk (((splitOnSlash url.toList).filter (fun s => !s.isEmpty)).getLastD [])

/-- Helper for `Path.with_suffix`: given the reversed character list of
a path, drop a trailing extension (up to and including the last dot of
the final component), or return `none` when the final component has no
dot. -/
def dropExtRev : List Char → Option (List Char)
  | [] => none
  | '.' :: rest => some rest
  | '/' :: _ => none
  | _ :: rest => dropExtRev rest

/-- `Path(p).with_suffix(".wav")`: replace the extension of the final
component of `p` with `.wav` (append when there is none). -/
def withSuffixWav (p : String) : String :=
  (match dropExtRev p.toList.reverse with
   | some r => String.mk r.reverse
   | none => p) ++ ".wav"

/-- Helper for `Path.parent`: given the reversed character list of a
path, drop the final component (up to and including the last `/`), or
return `none` when there is no `/`. -/
def dropLastComponentRev : List Char → Option (List Char)
  | [] => none
  | '/' :: rest => some rest
  | _ :: rest => dropLastComponentRev rest

/-- `Path(p).parent` rendered as a string: everything before the last
`/`, or `.` when `p` has no `/`. -/
def dirName (p : String) : String :=
  match dropLastComponentRev p.toList.reverse with
  | some r => String.mk r.reverse
  | none => "."

/-! ## Generated file names

`_download` names the local copy after the URL's last component;
`_extract_audio` replaces its extension with `.wav`; `_tts` and the
final output use `uuid4().hex` random suffixes (6 and 8 hex characters
respectively). -/

/-- Local name of the downloaded source video:
`dest_dir / Path(url).name`. -/
def downloadName (url : String) : String := pathName url

/-- Name of the extracted waveform: the video name with suffix `.wav`. -/
def wavName (url : String) : String := withSuffixWav (pathName url)

/-- Name of the synthesized audio artifact:
`gen_\x7buuid4().hex[:6]\x7d.mp3` with `u` the random 6-hex suffix. -/
def mp3Name (u : String) : String := "gen_" ++ u ++ ".mp3"

/-- Name of the final output video:
`translated_\x7buuid4().hex[:8]\x7d.mp4` with `u` the random 8-hex
suffix. -/
def outName (u : String) : String := "translated_" ++ u ++ ".mp4"

/-! ## JSON values and the uguu.se upload (`_upload_to_uguu`)

A parsed JSON document (the value `r.json()` produces).  Object keys of
parsed JSON are always strings. -/

inductive Json where
  | null
  | bool (b : Bool)
  | num (n : Int)
  | str (s : String)
  | arr (elems : List Json)
  | obj (fields : List (String × Json))
  deriving Repr

/-- Python truthiness of a parsed JSON value (`if j.get("success")`). -/
def truthy : Json → Bool
  | .null => false
  | .bool b => b
  | .num n => n != 0
  | .str s => s != ""
  | .arr xs => !xs.isEmpty
  | .obj kvs => !kvs.isEmpty

/-- `dict.get` / key membership on a parsed JSON object. -/
def jsonLookup (k : String) (kvs : List (String × Json)) : Option Json :=
  (kvs.find? (fun kv => kv.fst == k)).map Prod.snd

/-- Python `len()` on a parsed JSON value: defined for strings, arrays
and objects; a `TypeError` (modelled as `none`) otherwise. -/
def pyLen : Json → Option Nat
  | .str s => some s.length
  | .arr xs => some xs.length
  | .obj kvs => some kvs.length
  | _ => none

/-- The final lookup `f0["url"]` on the first entry of the `files`
list: the value under `"url"` when `f0` is an object holding that key;
otherwise the `KeyError`/`TypeError` Python raises (and the caller's
`except` catches) is modelled as `none`. -/
def extractUrl : Json → Option Json
  | .obj fkvs => jsonLookup "url" fkvs
  | _ => none

/-- Behaviour of the `requests.post` upload call:
either a transport-level exception is raised, or a response arrives
whose body parses as the given JSON value (`none` when `r.json()`
raises because the body is not JSON). -/
inductive UploadBehavior where
  | raised
  | response (body : Option Json)
  deriving Repr

/-- `SyncTranslateNode._upload_to_uguu`: POST the file, parse the JSON
body, and return `j["files"][0]["url"]` when the success flag is truthy
and a nonempty `files` entry exists; every exception anywhere in the
body (transport failure, JSON parse failure, `TypeError` in `len`,
`KeyError`/`TypeError` while indexing) is caught by the surrounding
`try/except` and converted to `none`. -/
def uploadToUguu (b : UploadBehavior) : Option Json :=
  match b with
  | .raised => none
  | .response none => none
  | .response (some j) =>
    match j with
    | .obj kvs =>
      -- if j.get("success") and "files" in j and len(j["files"]) > 0:
      let cond : Option Bool :=
        if truthy ((jsonLookup "success" kvs).getD .null) then
          match jsonLookup "files" kvs with
          | none => some false
          | some fv =>
            match pyLen fv with
            | none => none          -- TypeError raised inside the try
            | some n => some (decide (0 < n))
        else some false
      match cond with
      | none => none
      | some false => none
      | some true =>
        -- return j["files"][0]["url"]
        match jsonLookup "files" kvs with
        | some (.arr (f0 :: _)) => extractUrl f0
        | _ => none                 -- indexing a non-list by 0 raises, caught
    | _ => none                     -- j.get on a non-dict raises, caught

/-! ## Errors, events and the external-world oracle -/

/-- The error kinds an invocation can raise (propagate uncaught):
a transfer failure in `_download` (`raise_for_status` / timeout), an
extraction failure in `_extract_audio` (missing audio track / undecodable
container), a rejection of one of the three speech-pipeline calls, or a
sync.so `ApiError` raised outside the guarded `create` call (i.e. by
`client.get` while polling or fetching the output URL). -/
inductive PErr where
  | transfer (url : String)
  | extraction
  | transcription
  | translation
  | synthesis
  | syncApi (code : Nat) (body : String)
  deriving Repr, DecidableEq

/-- Externally visible side effects of one invocation, in order. -/
inductive Event where
  | mkdir (dir : String)
  | httpGet (url : String)
  | writeFile (path : String) (content : Bytes)
  | openClip (path : String)
  | writeAudio (path : String)
  | closeClip
  | transcribeCall (model : String) (audioPath : String)
  | chatCall (model : String) (prompt : String)
  | ttsCall (text : String) (voice : String)
  | uploadPost (path : String)
  | jobCreate (videoUrl : String) (segStart segEnd : Rat)
      (audioUrl : Json) (model : String) (syncMode : String)
  | jobGet (jobId : String)
  | sleep (seconds : Nat)
  | writeJson (path : String) (content : List (String × String))
  deriving Repr

/-- One answer of `client.get(job_id)` during polling: either a status
string, or a raised `ApiError`. -/
inductive PollStep where
  | status (s : String)
  | raised (code : Nat) (body : String)
  deriving Repr, DecidableEq

/-- How the polling loop ends: with a terminal status, with an
exception raised by `client.get`, or never (the provider's answers ran
out without a terminal status — the real loop then spins forever). -/
inductive PollOutcome where
  | terminal (s : String)
  | err (code : Nat) (body : String)
  | hang
  deriving Repr, DecidableEq

/-- The loop guard `status not in ["COMPLETED", "FAILED"]`, negated:
is this status one of the two terminal values? -/
def isTerminal (s : String) : Bool :=
  s == "COMPLETED" || s == "FAILED"

/-- The polling loop (`while status not in ["COMPLETED", "FAILED"]:
time.sleep(args.poll_interval); status = client.get(job_id).status`),
run against the sequence of answers the provider gives to successive
`client.get` calls.  Each iteration records its sleep and its status
fetch; the loop exits as soon as a fetched status is terminal. -/
def pollRun (interval : Nat) (jobId : String) :
    List PollStep → PollOutcome × List Event
  | [] => (.hang, [])
  | step :: rest =>
    match step with
    | .raised c b => (.err c b, [.sleep interval, .jobGet jobId])
    | .status s =>
      if isTerminal s then
        (.terminal s, [.sleep interval, .jobGet jobId])
      else
        ((pollRun interval jobId rest).1,
         .sleep interval :: .jobGet jobId :: (pollRun interval jobId rest).2)

/-! ## The two filesystem helpers -/

/-- `SyncTranslateNode._download`: GET the URL (streaming), raise on a
non-2xx response or timeout, and stream the body to
`explicit_path or dest_dir / Path(url).name`.  The transport outcome
(`fetch`) is the oracle's answer for this GET: `none` models a raised
`requests` exception, `some bytes` a successful 2xx body. -/
def download (fetch : Option Bytes) (url : String) (destDir : String)
    (explicitPath : Option String) : Except PErr String × List Event :=
  let localPath := explicitPath.getD (destDir ++ "/" ++ downloadName url)
  match fetch with
  | none => (.error (.transfer url), [.httpGet url])
  | some bs => (.ok localPath, [.httpGet url, .writeFile localPath bs])

/-- `SyncTranslateNode._extract_audio`: open the video with
`VideoFileClip`, write its audio track to the same path with suffix
`.wav`, close the clip, return the wav path.  `hasAudio` is the
oracle's answer for the decoder: `false` models the failure case (no
audio track, so `clip.audio.write_audiofile` raises; there is no
`try/finally`, so the raised exception skips `clip.close()`). -/
def extractAudio (hasAudio : Bool) (vidPath : String) :
    Except PErr String × List Event :=
  let wavPath := withSuffixWav vidPath
  if hasAudio then
    (.ok wavPath, [.openClip vidPath, .writeAudio wavPath, .closeClip])
  else
    (.error .extraction, [.openClip vidPath])

/-! ## Timestamps (`datetime.utcnow().isoformat()`) -/

/-- A naive Python `datetime` as produced by `datetime.utcnow()`:
calendar fields plus microseconds.  Python datetimes keep
`1 <= year <= 9999`, so the year always prints as exactly four
digits. -/
structure PyDateTime where
  year : Nat
  month : Nat
  day : Nat
  hour : Nat
  minute : Nat
  second : Nat
  microsecond : Nat
  deriving Repr, DecidableEq

/-- The last two decimal digits of `n`, zero padded (`%02d` for values
below 100, as printed for month, day, hour, minute and second). -/
def pad2 (n : Nat) : List Char :=
  [Nat.digitChar (n / 10 % 10), Nat.digitChar (n % 10)]

/-- The last four decimal digits of `n`, zero padded (`%04d`; Python
years satisfy `1 <= year <= 9999`, so this is exactly the year as
printed). -/
def pad4 (n : Nat) : List Char :=
  [Nat.digitChar (n / 1000 % 10), Nat.digitChar (n / 100 % 10),
   Nat.digitChar (n / 10 % 10), Nat.digitChar (n % 10)]

/-- The last six decimal digits of `n`, zero padded (`%06d`, as printed
for the microsecond field). -/
def pad6 (n : Nat) : List Char :=
  [Nat.digitChar (n / 100000 % 10), Nat.digitChar (n / 10000 % 10),
   Nat.digitChar (n / 1000 % 10), Nat.digitChar (n / 100 % 10),
   Nat.digitChar (n / 10 % 10), Nat.digitChar (n % 10)]

/-- Python's `datetime.isoformat()` on a naive datetime:
`YYYY-MM-DDTHH:MM:SS`, with `.ffffff` appended only when the
microsecond field is nonzero. -/
def isoformat (dt : PyDateTime) : String :=
  String.mk
    (pad4 dt.year ++ '-' :: pad2 dt.month ++ '-' :: pad2 dt.day
      ++ 'T' :: pad2 dt.hour ++ ':' :: pad2 dt.minute
      ++ ':' :: pad2 dt.second
      ++ (if dt.microsecond == 0 then [] else '.' :: pad6 dt.microsecond))

/-- Well-formedness of an ISO-8601 date-time string (naive, as written
by the pipeline): `YYYY-MM-DDTHH:MM:SS` optionally followed by
`.ffffff`, with digits in every numeric position. -/
def isISO8601Chars : List Char → Bool
  | y1 :: y2 :: y3 :: y4 :: sep1 :: m1 :: m2 :: sep2 :: d1 :: d2 :: sepT
      :: h1 :: h2 :: sep3 :: n1 :: n2 :: sep4 :: s1 :: s2 :: rest =>
    sep1 == '-' && sep2 == '-' && sepT == 'T' && sep3 == ':' && sep4 == ':'
      && ([y1, y2, y3, y4, m1, m2, d1, d2, h1, h2, n1, n2, s1, s2].all Char.isDigit)
      && (match rest with
          | [] => true
          | dot :: ms => dot == '.' && ms.length == 6 && ms.all Char.isDigit)
  | _ => false

/-- Well-formedness of an ISO-8601 timestamp string. -/
def isISO8601 (s : String) : Bool := isISO8601Chars s.toList

/-! ## The external-world oracle -/

/-- One invocation's external world: the outcome of every external call
the pipeline makes, in program order.  `none` at a transport field
models a raised exception of that step's provider. -/
structure Env where
  /-- GET of `args.video_url`: body bytes, or a raised transfer error. -/
  fetchVideo : Option Bytes
  /-- does the downloaded video have a decodable audio track? -/
  hasAudio : Bool
  /-- `openai.audio.transcriptions.create(...).text`, or a provider rejection. -/
  transcribe : Option String
  /-- `openai.chat.completions.create(...)` content, or a provider rejection. -/
  chatCompletion : Option String
  /-- `client.text_to_speech.convert(...)` bytes, or a provider rejection. -/
  ttsBytes : Option Bytes
  /-- behaviour of the uguu.se upload POST. -/
  upload : UploadBehavior
  /-- `client.create(...)`: the job id, or an `ApiError` (status code, body). -/
  createJob : Except (Nat × String) String
  /-- successive answers of `client.get(job_id)` inside the polling loop. -/
  polls : List PollStep
  /-- `client.get(job_id).output_url` after completion, or an `ApiError`. -/
  outputUrlGet : Except (Nat × String) String
  /-- GET of the output artifact URL: bytes, or a raised transfer error. -/
  fetchOutput : Option Bytes
  /-- `uuid4().hex[:6]` drawn for the synthesized-audio file name. -/
  uuid6 : String
  /-- `uuid4().hex[:8]` drawn for the final output file name. -/
  uuid8 : String
  /-- `datetime.utcnow()` at metadata-writing time. -/
  now : PyDateTime

/-! ## The pipeline -/

/-- Lines 99–106 of `translate_video`: the seven assignments
`args.source_language = source_language`, …, `args.segment_end =
segment_end` that overwrite fields of the incoming `BabelfishArgs`
bundle with the node's own optional inputs, before the pipeline
starts. -/
def overrideArgs (args : BabelfishArgs)
    (source_language output_json_path voice_id lipsync_model sync_mode : String)
    (segment_start segment_end : Rat) : BabelfishArgs :=
  { args with
    source_language := source_language
    output_json_path := output_json_path
    voice_id := voice_id
    lipsync_model := lipsync_model
    sync_mode := sync_mode
    segment_start := segment_start
    segment_end := segment_end }

/-- `SyncTranslateNode._tts`: transcribe the wav at
`args.tmp_dir / audio_file_stem` with Whisper, translate the transcript
with a chat completion (stripping surrounding whitespace), synthesize
the translation with ElevenLabs (falling back to the default voice id
when `args.voice_id` is empty), and write the audio to
`args.tmp_dir / gen_<uuid6>.mp3`.  Returns the mp3 path and the
translated text; any provider rejection propagates. -/
def tts (env : Env) (args : BabelfishArgs) (audioFileStem : String) :
    Except PErr (String × String) × List Event :=
  let audioPath := args.tmp_dir ++ "/" ++ audioFileStem
  match env.transcribe with
  | none => (.error .transcription, [.transcribeCall args.transcription_model audioPath])
  | some transcription =>
    let prompt := "Translate the following transcript to " ++ args.target_language
      ++ " preserving tone and emotion:\n" ++ transcription
    match env.chatCompletion with
    | none =>
      (.error .translation,
       [.transcribeCall args.transcription_model audioPath,
        .chatCall args.gpt_model prompt])
    | some content =>
      let translation := content.trim
      let voice := if args.voice_id == "" then "21m00Tcm4TlvDq8ikWAM" else args.voice_id
      match env.ttsBytes with
      | none =>
        (.error .synthesis,
         [.transcribeCall args.transcription_model audioPath,
          .chatCall args.gpt_model prompt, .ttsCall translation voice])
      | some audioBytes =>
        let mp3Path := args.tmp_dir ++ "/" ++ mp3Name env.uuid6
        (.ok (mp3Path, translation),
         [.transcribeCall args.transcription_model audioPath,
          .chatCall args.gpt_model prompt, .ttsCall translation voice,
          .writeFile mp3Path audioBytes])

/-- How one invocation of `translate_video` ends: with a raised
provider error, with a returned result string (the single element of
the returned dict's `result` tuple — a failure message or the final
output path), or never (the polling loop observed no terminal
status). -/
inductive RunOutcome where
  | raised (e : PErr)
  | returned (s : String)
  | hang
  deriving Repr, DecidableEq

/-- `SyncTranslateNode.translate_video`, statement by statement:
overwrite the args bundle with the node's optional inputs; make the
temp directory; download the source video; extract its audio; run the
speech pipeline; upload the synthesized audio (short-circuiting with
`"Generated speech upload failed"` when no URL comes back); submit the
lipsync job (returning `"Sync error – <code>: <body>"` when the
provider rejects it); poll until a terminal status; on a non-`COMPLETED`
terminal status return `"Lipsync job <id> failed: <status>"`; otherwise
fetch the output URL, download the result to a `translated_<uuid8>.mp4`
next to the metadata file (or in the temp directory), write the
metadata JSON when a path was supplied, and return the output path. -/
def translateVideo (env : Env) (babelfishArgs : BabelfishArgs)
    (source_language : String := "") (output_json_path : String := "")
    (voice_id : String := "") (lipsync_model : String := "lipsync-2")
    (sync_mode : String := "bounce")
    (segment_start : Rat := -1) (segment_end : Rat := -1) :
    RunOutcome × List Event :=
  let args := overrideArgs babelfishArgs source_language output_json_path
    voice_id lipsync_model sync_mode segment_start segment_end
  let ev0 : List Event := [.mkdir args.tmp_dir]
  -- local_vid = Path(self._download(args.video_url, args.tmp_dir))
  match download env.fetchVideo args.video_url args.tmp_dir none with
  | (.error e, ev1) => (.raised e, ev0 ++ ev1)
  | (.ok localVid, ev1) =>
    -- extracted_wav = self._extract_audio(local_vid)
    match extractAudio env.hasAudio localVid with
    | (.error e, ev2) => (.raised e, ev0 ++ ev1 ++ ev2)
    | (.ok extractedWav, ev2) =>
      -- generated_audio_mp3, translated_text = self._tts(args, extracted_wav.name)
      match tts env args (pathName extractedWav) with
      | (.error e, ev3) => (.raised e, ev0 ++ ev1 ++ ev2 ++ ev3)
      | (.ok (generatedAudioMp3, translatedText), ev3) =>
        let evA := ev0 ++ ev1 ++ ev2 ++ ev3 ++ [Event.uploadPost generatedAudioMp3]
        -- aud_url = self._upload_to_uguu(generated_audio_mp3)
        match uploadToUguu env.upload with
        | none => (.returned "Generated speech upload failed", evA)
        | some audUrl =>
          let createEv := Event.jobCreate args.video_url args.segment_start
            args.segment_end audUrl args.lipsync_model args.sync_mode
          match env.createJob with
          | .error (code, body) =>
            (.returned ("Sync error – " ++ toString code ++ ": " ++ body),
             evA ++ [createEv])
          | .ok jobId =>
            let evB := evA ++ [createEv]
            match pollRun args.poll_interval jobId env.polls with
            | (.hang, evP) => (.hang, evB ++ evP)
            | (.err c b, evP) => (.raised (.syncApi c b), evB ++ evP)
            | (.terminal status, evP) =>
              let evC := evB ++ evP
              if status != "COMPLETED" then
                (.returned ("Lipsync job " ++ jobId ++ " failed: " ++ status), evC)
              else
                -- output_url = client.get(job_id).output_url
                match env.outputUrlGet with
                | .error (c, b) =>
                  (.raised (.syncApi c b), evC ++ [Event.jobGet jobId])
                | .ok outputUrl =>
                  let outfile :=
                    if args.output_json_path != "" then
                      dirName args.output_json_path ++ "/" ++ outName env.uuid8
                    else
                      args.tmp_dir ++ "/" ++ outName env.uuid8
                  let evD := evC ++ [Event.jobGet jobId]
                    ++ (if args.output_json_path != ""
                        then [Event.mkdir (dirName args.output_json_path)] else [])
                  -- self._download(output_url, args.tmp_dir, outfile)
                  match download env.fetchOutput outputUrl args.tmp_dir (some outfile) with
                  | (.error e, ev4) => (.raised e, evD ++ ev4)
                  | (.ok _, ev4) =>
                    let evE := evD ++ ev4
                    if args.output_json_path != "" then
                      let metadata : List (String × String) := [
                        ("input_video_url", args.video_url),
                        ("translated_text", translatedText),
                        ("target_language", args.target_language),
                        ("source_language", args.source_language),
                        ("output_video_path", outfile),
                        ("voice_id", args.voice_id),
                        ("lipsync_model", args.lipsync_model),
                        ("sync_mode", args.sync_mode),
                        ("job_id", jobId),
                        ("timestamp", isoformat env.now)]
                      (.returned outfile,
                       evE ++ [Event.writeJson args.output_json_path metadata])
                    else
                      (.returned outfile, evE)

/-! ## Event classifiers -/

/-- Is this event a lipsync job submission (`client.create`)? -/
def isJobCreateEv : Event → Bool
  | .jobCreate _ _ _ _ _ _ => true
  | _ => false

/-- Is this event a job status fetch (`client.get`)? -/
def isJobGetEv : Event → Bool
  | .jobGet _ => true
  | _ => false

/-- Is this event a metadata JSON write (`json.dump`)? -/
def isWriteJsonEv : Event → Bool
  | .writeJson _ _ => true
  | _ => false

/-- The four local file names one pipeline run creates in the shared
temp directory namespace, given the source URL and the two random
suffixes the run draws: the downloaded video, the extracted waveform,
the synthesized audio, and the final output. -/
def runFileNames (videoUrl u6 u8 : String) : List String :=
  [downloadName videoUrl, wavName videoUrl, mp3Name u6, outName u8]

/-- A concrete incoming args bundle whose `source_language` and
`voice_id` were set by the caller. -/
def sampleArgs : BabelfishArgs := {
  sync_api_key := "sk-sync", openai_api_key := "sk-openai",
  eleven_api_key := "sk-eleven",
  video_url := "http://example.com/video.mp4", target_language := "Spanish",
  source_language := "English", voice_id := "voiceA" }

/-- A concrete well-formed uguu.se response body. -/
def okUploadJson : Json :=
  .obj [("success", .bool true),
        ("files", .arr [.obj [("url", .str "https://uguu.se/f.mp3")]])]

/-- A concrete external world in which every call succeeds and the job
completes at the second poll. -/
def sampleEnvOk : Env := {
  fetchVideo := some [1, 2, 3], hasAudio := true,
  transcribe := some "hello there", chatCompletion := some " hola amigo ",
  ttsBytes := some [4, 5, 6],
  upload := .response (some okUploadJson),
  createJob := .ok "job-1",
  polls := [.status "PENDING", .status "COMPLETED"],
  outputUrlGet := .ok "https://cdn.example/out.mp4",
  fetchOutput := some [9, 9],
  uuid6 := "abc123", uuid8 := "deadbeef",
  now := { year := 2026, month := 10, day := 12, hour := 3, minute := 4,
           second := 5, microsecond := 123456 } }

/-- The same world, except the upload POST raises a transport error
(e.g. a simulated provider 500). -/
def sampleEnvUploadFail : Env := { sampleEnvOk with upload := .raised }

/-- The same world, except the job reaches the FAILED terminal status
at the first poll. -/
def sampleEnvJobFailed : Env := { sampleEnvOk with polls := [.status "FAILED"] }

/-- The same world, except the completed output artifact's HTTP body is
empty (a zero-byte 200 response): `_download` then streams zero bytes
into the output file. -/
def sampleEnvEmptyOutput : Env := { sampleEnvOk with fetchOutput := some [] }

/-! ## Helper lemmas -/

theorem digitChar_mod_isDigit (n : Nat) : (Nat.digitChar (n % 10)).isDigit = true := by
  have h : n % 10 < 10 := Nat.mod_lt _ (by norm_num)
  revert h
  generalize n % 10 = k
  intro h
  interval_cases k <;> decide

theorem pollRun_filter_writeJson (i : Nat) (j : String) (l : List PollStep) :
    ((pollRun i j l).2).filter isWriteJsonEv = [] := by
  induction l with
  | nil => rfl
  | cons step rest ih =>
    cases step with
    | raised c b => simp [pollRun, isWriteJsonEv]
    | status st =>
      by_cases h : isTerminal st
      · simp [pollRun, h, isWriteJsonEv]
      · simp [pollRun, h, isWriteJsonEv, ih]

theorem isoformat_wellformed (dt : PyDateTime) : isISO8601 (isoformat dt) = true := by
  unfold isISO8601 isoformat
  cases h : dt.microsecond == 0 <;>
    simp [pad2, pad4, pad6, isISO8601Chars, digitChar_mod_isDigit, String.toList, h]

theorem pollRun_no_writeFile (i : Nat) (j : String) (l : List PollStep)
    (p : String) (bs : Bytes) :
    Event.writeFile p bs ∉ (pollRun i j l).2 := by
  induction l with
  | nil => simp [pollRun]
  | cons step rest ih =>
    cases step with
    | raised c b => simp [pollRun]
    | status st =>
      by_cases h : isTerminal st
      · simp [pollRun, h]
      · simp [pollRun, h, ih]

theorem run_writeFile_at_output_path_unique (env : Env)
    (args : BabelfishArgs) (sl ojp vid lm sm : String) (ss se : Rat)
    (bv : Bytes) (t c : String) (ab : Bytes) (u : Json) (jid ourl : String)
    (obs : Bytes)
    (hfv : env.fetchVideo = some bv)
    (hha : env.hasAudio = true)
    (htr : env.transcribe = some t)
    (hch : env.chatCompletion = some c)
    (htb : env.ttsBytes = some ab)
    (hup : uploadToUguu env.upload = some u)
    (hcj : env.createJob = Except.ok jid)
    (hpo : (pollRun args.poll_interval jid env.polls).1
        = PollOutcome.terminal "COMPLETED")
    (hog : env.outputUrlGet = Except.ok ourl)
    (hfo : env.fetchOutput = some obs)
    (hojp : ojp ≠ "")
    (hne1 : args.tmp_dir ++ "/" ++ downloadName args.video_url
        ≠ dirName ojp ++ "/" ++ outName env.uuid8)
    (hne2 : args.tmp_dir ++ "/" ++ mp3Name env.uuid6
        ≠ dirName ojp ++ "/" ++ outName env.uuid8) :
    ∀ bs, Event.writeFile (dirName ojp ++ "/" ++ outName env.uuid8) bs
        ∈ (translateVideo env args sl ojp vid lm sm ss se).2 → bs = obs := by
  have hnoP : ∀ bs, Event.writeFile (dirName ojp ++ "/" ++ outName env.uuid8) bs
      ∉ ((pollRun args.poll_interval jid env.polls).2) :=
    fun bs => pollRun_no_writeFile _ _ _ _ _
  rcases hpr : pollRun args.poll_interval jid env.polls with ⟨po, evP⟩
  rw [hpr] at hpo
  simp only at hpo
  subst hpo
  rw [hpr] at hnoP
  simp only at hnoP
  intro bs hmem
  simp only [translateVideo, download, extractAudio, tts, hfv, hha, htr, hch, htb,
    hup, hcj, overrideArgs, hpr, hog, hfo] at hmem
  simp [bne_iff_ne, hojp, List.mem_append, hne1.symm, hne2.symm, hnoP bs] at hmem
  exact hmem

/-! ## Claim theorems -/

/-- C2: the polling loop exits exactly when the fetched job status is
one of the two terminal values "COMPLETED" or "FAILED".  Part (i): when
the provider answers a (possibly empty) run of non-terminal statuses
followed by a terminal one, the loop ends at that first terminal status
— regardless of what would be answered afterwards — and performs
exactly one `client.get` per status up to and including it.  Part (ii):
whenever the loop exits with a status, that status is terminal and was
among the fetched statuses, so no non-terminal status (e.g. a
hypothetical "PROCESSING") ever causes the loop to exit early. -/
theorem C2_polling_stops_exactly_at_first_terminal_status :
    (∀ (interval : Nat) (jobId : String) (pre : List String) (s : String)
        (rest : List PollStep),
      (∀ x ∈ pre, isTerminal x = false) → isTerminal s = true →
      (pollRun interval jobId
          (pre.map PollStep.status ++ PollStep.status s :: rest)).1
        = PollOutcome.terminal s ∧
      ((pollRun interval jobId
          (pre.map PollStep.status ++ PollStep.status s :: rest)).2.filter
            isJobGetEv).length = pre.length + 1) ∧
    (∀ (interval : Nat) (jobId : String) (statuses : List String) (s : String),
      (pollRun interval jobId (statuses.map PollStep.status)).1
          = PollOutcome.terminal s →
      isTerminal s = true ∧ s ∈ statuses) := by
  constructor
  · intro interval jobId pre s rest hpre hs
    induction pre with
    | nil => simp [pollRun, hs, isJobGetEv]
    | cons x xs ih =>
      have hx : isTerminal x = false := hpre x (by simp)
      have ih' := ih (fun y hy => hpre y (by simp [hy]))
      simp only [List.map_cons, List.cons_append, pollRun, hx, Bool.false_eq_true,
        if_false] at *
      simp [isJobGetEv, ih'.1, ih'.2, Nat.add_comm]
  · intro interval jobId statuses s
    induction statuses with
    | nil => simp [pollRun]
    | cons x xs ih =>
      by_cases hx : isTerminal x
      · simp [pollRun, hx]
        rintro rfl
        exact ⟨hx, by simp⟩
      · simp only [List.map_cons, pollRun, hx, Bool.false_eq_true, if_false]
        intro h
        rcases ih h with ⟨h1, h2⟩
        exact ⟨h1, by simp [h2]⟩

/-- Witness for C2: a concrete poll sequence "PENDING", "PROCESSING",
"COMPLETED" ends at the first terminal status after exactly three
status fetches. -/
theorem C2_witness :
    (pollRun 5 "job-1" [PollStep.status "PENDING", PollStep.status "PROCESSING",
        PollStep.status "COMPLETED"]).1 = PollOutcome.terminal "COMPLETED" ∧
    ((pollRun 5 "job-1" [PollStep.status "PENDING", PollStep.status "PROCESSING",
        PollStep.status "COMPLETED"]).2.filter isJobGetEv).length = 3 := by
  have h := C2_polling_stops_exactly_at_first_terminal_status.1 5 "job-1"
    ["PENDING", "PROCESSING"] "COMPLETED" [] (by decide) (by decide)
  simpa using h

/-- C5: `_upload_to_uguu` never raises.  A raised transport exception
and an unparseable response body are both converted to the "no URL"
sentinel `none`; and whenever a URL value is returned, the behaviour
was a response whose body parsed as a JSON object with a truthy
`success` flag, a `files` entry holding a non-empty list, and the URL
drawn from the first file record.  (By totality of the `Option`-valued
model, every other input yields the same `none` sentinel.) -/
theorem C5_upload_never_raises_and_url_implies_success :
    uploadToUguu UploadBehavior.raised = none ∧
    uploadToUguu (UploadBehavior.response none) = none ∧
    (∀ (b : UploadBehavior) (v : Json), uploadToUguu b = some v →
      ∃ kvs f0 fs,
        b = UploadBehavior.response (some (Json.obj kvs)) ∧
        truthy ((jsonLookup "success" kvs).getD Json.null) = true ∧
        jsonLookup "files" kvs = some (Json.arr (f0 :: fs)) ∧
        ∃ fkvs, f0 = Json.obj fkvs ∧ jsonLookup "url" fkvs = some v) := by
  refine ⟨rfl, rfl, ?_⟩
  intro b v h
  cases b with
  | raised => simp [uploadToUguu] at h
  | response body =>
    cases body with
    | none => simp [uploadToUguu] at h
    | some j =>
      cases j with
      | null => simp [uploadToUguu] at h
      | bool x => simp [uploadToUguu] at h
      | num x => simp [uploadToUguu] at h
      | str x => simp [uploadToUguu] at h
      | arr xs => simp [uploadToUguu] at h
      | obj kvs =>
        simp only [uploadToUguu] at h
        by_cases hs : truthy ((jsonLookup "success" kvs).getD Json.null)
        · rw [if_pos hs] at h
          rcases hf : jsonLookup "files" kvs with _ | fv
          · rw [hf] at h
            simp at h
          · rw [hf] at h
            cases fv with
            | null => simp [pyLen] at h
            | bool x => simp [pyLen] at h
            | num x => simp [pyLen] at h
            | str x =>
              rcases hx : decide (0 < x.length) with _ | _ <;>
                simp [pyLen, hx, hf] at h
            | obj okvs =>
              rcases hx : decide (0 < okvs.length) with _ | _ <;>
                simp [pyLen, hx, hf] at h
            | arr xs =>
              cases xs with
              | nil => simp [pyLen] at h
              | cons f0 fs =>
                simp only [pyLen, List.length_cons, Nat.zero_lt_succ,
                  decide_True, hf] at h
                cases f0 with
                | obj fkvs =>
                  simp only [extractUrl] at h
                  exact ⟨kvs, Json.obj fkvs, fs, rfl, hs, hf, fkvs, rfl, h⟩
                | null => simp [extractUrl] at h
                | bool x => simp [extractUrl] at h
                | num x => simp [extractUrl] at h
                | str x => simp [extractUrl] at h
                | arr ys => simp [extractUrl] at h
        · rw [if_neg hs] at h
          simp at h

/-- Witness for C5: a concrete well-formed uguu.se response yields its
URL, and the success conditions hold of it. -/
theorem C5_witness :
    ∃ kvs f0 fs,
      UploadBehavior.response (some (Json.obj
          [("success", Json.bool true),
           ("files", Json.arr [Json.obj [("url", Json.str "https://a.example/f.mp3")]])]))
        = UploadBehavior.response (some (Json.obj kvs)) ∧
      truthy ((jsonLookup "success" kvs).getD Json.null) = true ∧
      jsonLookup "files" kvs = some (Json.arr (f0 :: fs)) ∧
      ∃ fkvs, f0 = Json.obj fkvs ∧
        jsonLookup "url" fkvs = some (Json.str "https://a.example/f.mp3") :=
  C5_upload_never_raises_and_url_implies_success.2.2
    (UploadBehavior.response (some (Json.obj
      [("success", Json.bool true),
       ("files", Json.arr [Json.obj [("url", Json.str "https://a.example/f.mp3")]])])))
    (Json.str "https://a.example/f.mp3") rfl

/-- C8: `_extract_audio` closes the opened clip on the successful path,
but on the failure path (the video has no decodable audio track, so
`clip.audio.write_audiofile` raises before `clip.close()` is reached —
there is no `try/finally`) the function exits without ever emitting a
close: the failure trace for a concrete input contains no `closeClip`
event, contradicting the contract that the decoder resource is released
on every exit path. -/
theorem C8_extract_audio_skips_close_on_failure :
    (extractAudio true "/tmp/sync_translate/video.mp4").2
      = [Event.openClip "/tmp/sync_translate/video.mp4",
         Event.writeAudio "/tmp/sync_translate/video.wav", Event.closeClip] ∧
    extractAudio false "/tmp/sync_translate/video.mp4"
      = (Except.error PErr.extraction,
         [Event.openClip "/tmp/sync_translate/video.mp4"]) ∧
    Event.closeClip ∉ (extractAudio false "/tmp/sync_translate/video.mp4").2 := by
  refine ⟨rfl, rfl, ?_⟩
  simp [extractAudio]

/-- C10 counterexample: the args bundle is not immutable.  The first
statements of `translate_video` overwrite seven of its fields with the
node's own optional inputs (modelled by `overrideArgs`, which
`translateVideo` applies on entry): invoking the node with its default
optional inputs on a bundle whose `source_language` was "English"
leaves the bundle changed — its `source_language` is cleared. -/
theorem C10_counterexample_args_bundle_mutated :
    overrideArgs sampleArgs "" "" "" "lipsync-2" "bounce" (-1) (-1) ≠ sampleArgs ∧
    (overrideArgs sampleArgs "" "" "" "lipsync-2" "bounce" (-1) (-1)).source_language
      ≠ sampleArgs.source_language := by
  constructor <;> decide

/-- C10 amended: `translate_video` overwrites exactly the seven fields
`source_language`, `output_json_path`, `voice_id`, `lipsync_model`,
`sync_mode`, `segment_start`, `segment_end` of the incoming
`BabelfishArgs` bundle with its own optional inputs, and leaves every
other field (the three credentials, the video URL, the target language,
the three provider model names, the poll interval and the temp
directory) unchanged. -/
theorem C10_amended_seven_fields_overwritten_rest_preserved
    (args : BabelfishArgs) (sl ojp vid lm sm : String) (ss se : Rat) :
    (overrideArgs args sl ojp vid lm sm ss se).source_language = sl ∧
    (overrideArgs args sl ojp vid lm sm ss se).output_json_path = ojp ∧
    (overrideArgs args sl ojp vid lm sm ss se).voice_id = vid ∧
    (overrideArgs args sl ojp vid lm sm ss se).lipsync_model = lm ∧
    (overrideArgs args sl ojp vid lm sm ss se).sync_mode = sm ∧
    (overrideArgs args sl ojp vid lm sm ss se).segment_start = ss ∧
    (overrideArgs args sl ojp vid lm sm ss se).segment_end = se ∧
    (overrideArgs args sl ojp vid lm sm ss se).sync_api_key = args.sync_api_key ∧
    (overrideArgs args sl ojp vid lm sm ss se).openai_api_key = args.openai_api_key ∧
    (overrideArgs args sl ojp vid lm sm ss se).eleven_api_key = args.eleven_api_key ∧
    (overrideArgs args sl ojp vid lm sm ss se).video_url = args.video_url ∧
    (overrideArgs args sl ojp vid lm sm ss se).target_language = args.target_language ∧
    (overrideArgs args sl ojp vid lm sm ss se).tts_model = args.tts_model ∧
    (overrideArgs args sl ojp vid lm sm ss se).gpt_model = args.gpt_model ∧
    (overrideArgs args sl ojp vid lm sm ss se).transcription_model
      = args.transcription_model ∧
    (overrideArgs args sl ojp vid lm sm ss se).poll_interval = args.poll_interval ∧
    (overrideArgs args sl ojp vid lm sm ss se).tmp_dir = args.tmp_dir := by
  refine ⟨rfl, rfl, rfl, rfl, rfl, rfl, rfl, rfl, rfl, rfl, rfl, rfl, rfl,
    rfl, rfl, rfl, rfl⟩

/-- C7 counterexample: two runs with the same Job Request do collide.
The downloaded video is named `Path(url).name` — a deterministic
function of the URL with no random suffix — so two consecutive runs
against the same temp directory, even with entirely different random
suffixes, create a file of the same name ("video.mp4"), refuting the
claim that every locally created file name is unique across the two
runs. -/
theorem C7_counterexample_download_name_repeats :
    ∃ x ∈ runFileNames "http://example.com/video.mp4" "aaaaaa" "bbbbbbbb",
      x ∈ runFileNames "http://example.com/video.mp4" "cccccc" "dddddddd" := by
  refine ⟨"video.mp4", ?_, ?_⟩ <;> decide

/-- C7 amended: only the synthesized-audio and final-output names carry
random suffixes and never collide across two runs that draw different
suffixes (the suffixes are 6- and 8-character slices of `uuid4().hex`);
the downloaded-video and extracted-waveform names depend only on the
URL and so repeat across runs with the same Job Request. -/
theorem C7_amended_random_suffix_names_never_collide
    (u6 u6' u8 u8' : String)
    (h6 : u6 ≠ u6') (h8 : u8 ≠ u8')
    (hl6 : u6.length = 6) (hl6' : u6'.length = 6)
    (hl8 : u8.length = 8) (hl8' : u8'.length = 8) :
    mp3Name u6 ≠ mp3Name u6' ∧ outName u8 ≠ outName u8' ∧
    mp3Name u6 ≠ outName u8' ∧ outName u8 ≠ mp3Name u6' := by
  refine ⟨?_, ?_, ?_, ?_⟩
  · intro h
    apply h6
    have hd := congrArg String.data h
    simp only [mp3Name, String.data_append, List.append_assoc] at hd
    exact congrArg String.mk (List.append_cancel_right (List.append_cancel_left hd))
  · intro h
    apply h8
    have hd := congrArg String.data h
    simp only [outName, String.data_append, List.append_assoc] at hd
    exact congrArg String.mk (List.append_cancel_right (List.append_cancel_left hd))
  · intro h
    have hl := congrArg String.length h
    rw [mp3Name, outName, String.length_append, String.length_append,
      String.length_append, String.length_append, hl6, hl8',
      show ("gen_" : String).length = 4 from rfl,
      show (".mp3" : String).length = 4 from rfl,
      show ("translated_" : String).length = 11 from rfl,
      show (".mp4" : String).length = 4 from rfl] at hl
    omega
  · intro h
    have hl := congrArg String.length h
    rw [mp3Name, outName, String.length_append, String.length_append,
      String.length_append, String.length_append, hl8, hl6',
      show ("gen_" : String).length = 4 from rfl,
      show (".mp3" : String).length = 4 from rfl,
      show ("translated_" : String).length = 11 from rfl,
      show (".mp4" : String).length = 4 from rfl] at hl
    omega

/-- Witness for the amended C7: two concrete runs drawing different
random suffixes give four pairwise-distinct suffixed names. -/
theorem C7_witness :
    mp3Name "aaaaaa" ≠ mp3Name "cccccc" ∧
    outName "bbbbbbbb" ≠ outName "dddddddd" ∧
    mp3Name "aaaaaa" ≠ outName "dddddddd" ∧
    outName "bbbbbbbb" ≠ mp3Name "cccccc" :=
  C7_amended_random_suffix_names_never_collide "aaaaaa" "cccccc" "bbbbbbbb"
    "dddddddd" (by decide) (by decide) rfl rfl rfl rfl

/-- C3: whenever the upload step yields no URL, `translate_video`
returns the literal string "Generated speech upload failed" and the
run's trace contains no job submission — the lipsync job-creation
endpoint is never called. -/
theorem C3_upload_failure_short_circuits_before_submission (env : Env)
    (args : BabelfishArgs) (sl ojp vid lm sm : String) (ss se : Rat)
    (bv : Bytes) (t c : String) (ab : Bytes)
    (hfv : env.fetchVideo = some bv)
    (hha : env.hasAudio = true)
    (htr : env.transcribe = some t)
    (hch : env.chatCompletion = some c)
    (htb : env.ttsBytes = some ab)
    (hup : uploadToUguu env.upload = none) :
    (translateVideo env args sl ojp vid lm sm ss se).1
      = RunOutcome.returned "Generated speech upload failed" ∧
    ((translateVideo env args sl ojp vid lm sm ss se).2.filter isJobCreateEv)
      = [] := by
  simp [translateVideo, download, extractAudio, tts, hfv, hha, htr, hch, htb, hup,
    isJobCreateEv]

/-- Witness for C3: in a concrete world where the upload POST raises,
the run returns the upload-failure string and submits no job. -/
theorem C3_witness :
    (translateVideo sampleEnvUploadFail sampleArgs "" "" "" "lipsync-2" "bounce"
        (-1) (-1)).1
      = RunOutcome.returned "Generated speech upload failed" ∧
    ((translateVideo sampleEnvUploadFail sampleArgs "" "" "" "lipsync-2" "bounce"
        (-1) (-1)).2.filter isJobCreateEv) = [] :=
  C3_upload_failure_short_circuits_before_submission sampleEnvUploadFail sampleArgs
    "" "" "" "lipsync-2" "bounce" (-1) (-1) [1, 2, 3] "hello there" " hola amigo "
    [4, 5, 6] rfl rfl rfl rfl rfl rfl

/-- C4: whenever the polling loop ends with the terminal status
"FAILED", `translate_video` returns the string
"Lipsync job <id> failed: FAILED" — which contains the job id and the
literal status "FAILED" — and its trace contains no metadata JSON
write, whether or not an output metadata path was supplied. -/
theorem C4_failed_job_returns_message_and_writes_no_metadata (env : Env)
    (args : BabelfishArgs) (sl ojp vid lm sm : String) (ss se : Rat)
    (bv : Bytes) (t c : String) (ab : Bytes) (u : Json) (jid : String)
    (hfv : env.fetchVideo = some bv)
    (hha : env.hasAudio = true)
    (htr : env.transcribe = some t)
    (hch : env.chatCompletion = some c)
    (htb : env.ttsBytes = some ab)
    (hup : uploadToUguu env.upload = some u)
    (hcj : env.createJob = Except.ok jid)
    (hpo : (pollRun args.poll_interval jid env.polls).1
        = PollOutcome.terminal "FAILED") :
    (translateVideo env args sl ojp vid lm sm ss se).1
      = RunOutcome.returned ("Lipsync job " ++ jid ++ " failed: FAILED") ∧
    (∃ p q, "Lipsync job " ++ jid ++ " failed: FAILED" = p ++ jid ++ q) ∧
    (∃ p q, "Lipsync job " ++ jid ++ " failed: FAILED" = p ++ "FAILED" ++ q) ∧
    ((translateVideo env args sl ojp vid lm sm ss se).2.filter isWriteJsonEv)
      = [] := by
  have hevP : ((pollRun args.poll_interval jid env.polls).2).filter isWriteJsonEv
      = [] :=
    pollRun_filter_writeJson _ _ _
  rcases hpr : pollRun args.poll_interval jid env.polls with ⟨po, evP⟩
  rw [hpr] at hpo hevP
  simp only at hpo
  subst hpo
  simp only at hevP
  refine ⟨?_, ⟨"Lipsync job ", " failed: FAILED", ?_⟩,
    ⟨"Lipsync job " ++ jid ++ " failed: ", "", ?_⟩, ?_⟩
  · simp only [translateVideo, download, extractAudio, tts, hfv, hha, htr, hch, htb,
      hup, hcj, overrideArgs, hpr]
    simp [String.append_assoc]
  · rfl
  · simp [String.append_assoc]
  · simp only [translateVideo, download, extractAudio, tts, hfv, hha, htr, hch, htb,
      hup, hcj, overrideArgs, hpr]
    simp [List.filter_append, isWriteJsonEv, hevP]

/-- Witness for C4: in a concrete world where the first poll answers
"FAILED", the run returns the failure message for job id "job-1" and
writes no metadata. -/
theorem C4_witness :
    (translateVideo sampleEnvJobFailed sampleArgs "" "out/meta.json" "" "lipsync-2"
        "bounce" (-1) (-1)).1
      = RunOutcome.returned ("Lipsync job " ++ "job-1" ++ " failed: FAILED") ∧
    (∃ p q, "Lipsync job " ++ "job-1" ++ " failed: FAILED" = p ++ "job-1" ++ q) ∧
    (∃ p q, "Lipsync job " ++ "job-1" ++ " failed: FAILED" = p ++ "FAILED" ++ q) ∧
    ((translateVideo sampleEnvJobFailed sampleArgs "" "out/meta.json" "" "lipsync-2"
        "bounce" (-1) (-1)).2.filter isWriteJsonEv) = [] :=
  C4_failed_job_returns_message_and_writes_no_metadata sampleEnvJobFailed
    sampleArgs "" "out/meta.json" "" "lipsync-2" "bounce" (-1) (-1)
    [1, 2, 3] "hello there" " hola amigo " [4, 5, 6]
    (Json.str "https://uguu.se/f.mp3") "job-1"
    rfl rfl rfl rfl rfl rfl rfl rfl

/-- C6: when `segment_start` and `segment_end` are left at the sentinel
-1, the job submission receives the segment window [-1, -1] unchanged:
every run that reaches the `client.create` call records a `jobCreate`
event whose segment bounds are exactly -1 and -1 (not 0, and not
omitted). -/
theorem C6_sentinel_segment_window_passed_through (env : Env)
    (args : BabelfishArgs) (sl ojp vid lm sm : String)
    (bv : Bytes) (t c : String) (ab : Bytes) (u : Json)
    (hfv : env.fetchVideo = some bv)
    (hha : env.hasAudio = true)
    (htr : env.transcribe = some t)
    (hch : env.chatCompletion = some c)
    (htb : env.ttsBytes = some ab)
    (hup : uploadToUguu env.upload = some u) :
    Event.jobCreate args.video_url (-1) (-1) u lm sm
      ∈ (translateVideo env args sl ojp vid lm sm (-1) (-1)).2 := by
  simp only [translateVideo, download, extractAudio, tts, hfv, hha, htr, hch, htb,
    hup, overrideArgs]
  repeat' split
  all_goals simp_all [List.mem_append]

/-- Witness for C6: a concrete successful run submits its job with the
segment window [-1, -1]. -/
theorem C6_witness :
    Event.jobCreate sampleArgs.video_url (-1) (-1)
        (Json.str "https://uguu.se/f.mp3") "lipsync-2" "bounce"
      ∈ (translateVideo sampleEnvOk sampleArgs "" "" "" "lipsync-2" "bounce"
          (-1) (-1)).2 :=
  C6_sentinel_segment_window_passed_through sampleEnvOk sampleArgs
    "" "" "" "lipsync-2" "bounce" [1, 2, 3] "hello there" " hola amigo "
    [4, 5, 6] (Json.str "https://uguu.se/f.mp3") rfl rfl rfl rfl rfl rfl

/-- C9: on every fully successful run that was given an output metadata
path, the metadata record written to that path maps
"target_language", "source_language", "voice_id", "lipsync_model",
"sync_mode" and "job_id" exactly to the run's effective Job Request
fields and the job id used, and maps "timestamp" to a well-formed
ISO-8601 timestamp.  (The metadata file is the `json.dump` of this
record; parsing it back yields the record itself, by the JSON library's
round-trip contract.) -/
theorem C9_metadata_reproduces_request_fields (env : Env)
    (args : BabelfishArgs) (sl ojp vid lm sm : String) (ss se : Rat)
    (bv : Bytes) (t c : String) (ab : Bytes) (u : Json) (jid ourl : String)
    (obs : Bytes)
    (hfv : env.fetchVideo = some bv)
    (hha : env.hasAudio = true)
    (htr : env.transcribe = some t)
    (hch : env.chatCompletion = some c)
    (htb : env.ttsBytes = some ab)
    (hup : uploadToUguu env.upload = some u)
    (hcj : env.createJob = Except.ok jid)
    (hpo : (pollRun args.poll_interval jid env.polls).1
        = PollOutcome.terminal "COMPLETED")
    (hog : env.outputUrlGet = Except.ok ourl)
    (hfo : env.fetchOutput = some obs)
    (hojp : ojp ≠ "") :
    ∃ md,
      Event.writeJson ojp md ∈ (translateVideo env args sl ojp vid lm sm ss se).2 ∧
      md.lookup "target_language" = some args.target_language ∧
      md.lookup "source_language" = some sl ∧
      md.lookup "voice_id" = some vid ∧
      md.lookup "lipsync_model" = some lm ∧
      md.lookup "sync_mode" = some sm ∧
      md.lookup "job_id" = some jid ∧
      ∃ ts, md.lookup "timestamp" = some ts ∧ isISO8601 ts = true := by
  rcases hpr : pollRun args.poll_interval jid env.polls with ⟨po, evP⟩
  rw [hpr] at hpo
  simp only at hpo
  subst hpo
  refine ⟨[("input_video_url", args.video_url),
    ("translated_text", c.trim),
    ("target_language", args.target_language),
    ("source_language", sl),
    ("output_video_path", dirName ojp ++ "/" ++ outName env.uuid8),
    ("voice_id", vid),
    ("lipsync_model", lm),
    ("sync_mode", sm),
    ("job_id", jid),
    ("timestamp", isoformat env.now)], ?_, ?_, ?_, ?_, ?_, ?_, ?_,
    isoformat env.now, ?_, isoformat_wellformed env.now⟩
  · simp only [translateVideo, download, extractAudio, tts, hfv, hha, htr, hch, htb,
      hup, hcj, overrideArgs, hpr, hog, hfo]
    simp [bne_iff_ne, hojp, List.mem_append]
  all_goals simp [List.lookup]

/-- Witness for C9: in a concrete fully successful run with metadata
path "out/meta.json", the written record holds the request's fields,
the job id "job-1", and a well-formed timestamp. -/
theorem C9_witness :
    ∃ md,
      Event.writeJson "out/meta.json" md
        ∈ (translateVideo sampleEnvOk sampleArgs "" "out/meta.json" "voiceB"
            "lipsync-2" "bounce" (-1) (-1)).2 ∧
      md.lookup "target_language" = some sampleArgs.target_language ∧
      md.lookup "source_language" = some "" ∧
      md.lookup "voice_id" = some "voiceB" ∧
      md.lookup "lipsync_model" = some "lipsync-2" ∧
      md.lookup "sync_mode" = some "bounce" ∧
      md.lookup "job_id" = some "job-1" ∧
      ∃ ts, md.lookup "timestamp" = some ts ∧ isISO8601 ts = true :=
  C9_metadata_reproduces_request_fields sampleEnvOk sampleArgs
    "" "out/meta.json" "voiceB" "lipsync-2" "bounce" (-1) (-1)
    [1, 2, 3] "hello there" " hola amigo " [4, 5, 6]
    (Json.str "https://uguu.se/f.mp3") "job-1" "https://cdn.example/out.mp4"
    [9, 9] rfl rfl rfl rfl rfl rfl rfl rfl rfl rfl (by decide)

/-- C1 counterexample: the original claim fails when the completed
output artifact's HTTP body is empty.  In a concrete world identical to
the fully successful one except that the GET of the output URL answers
a zero-byte 200 body, the invocation completes (does not hang) yet its
outcome lies outside every disjunct of the claim: it raises nothing,
returns none of the three failure strings, and the path it returns is
not that of a non-empty file — the only write the run performs at the
returned path is of zero bytes.  (The code behaves the same way:
`_download` streams the empty body into the output file and
`translate_video` returns its path.) -/
theorem C1_counterexample_empty_output_completes_without_nonempty_file :
    (translateVideo sampleEnvEmptyOutput sampleArgs "" "out/meta.json" ""
        "lipsync-2" "bounce" (-1) (-1)).1 ≠ RunOutcome.hang ∧
    ¬ ((∃ e, (translateVideo sampleEnvEmptyOutput sampleArgs "" "out/meta.json" ""
          "lipsync-2" "bounce" (-1) (-1)).1 = RunOutcome.raised e) ∨
      (translateVideo sampleEnvEmptyOutput sampleArgs "" "out/meta.json" ""
          "lipsync-2" "bounce" (-1) (-1)).1
        = RunOutcome.returned "Generated speech upload failed" ∨
      (∃ (code : Nat) (body : String),
        (translateVideo sampleEnvEmptyOutput sampleArgs "" "out/meta.json" ""
            "lipsync-2" "bounce" (-1) (-1)).1
          = RunOutcome.returned ("Sync error – " ++ toString code ++ ": " ++ body)) ∨
      (∃ jid st,
        (translateVideo sampleEnvEmptyOutput sampleArgs "" "out/meta.json" ""
            "lipsync-2" "bounce" (-1) (-1)).1
          = RunOutcome.returned ("Lipsync job " ++ jid ++ " failed: " ++ st)) ∨
      (∃ p bs,
        (translateVideo sampleEnvEmptyOutput sampleArgs "" "out/meta.json" ""
            "lipsync-2" "bounce" (-1) (-1)).1 = RunOutcome.returned p ∧
        Event.writeFile p bs ∈ (translateVideo sampleEnvEmptyOutput sampleArgs ""
            "out/meta.json" "" "lipsync-2" "bounce" (-1) (-1)).2 ∧
        bs ≠ [])) := by
  have h1 : (translateVideo sampleEnvEmptyOutput sampleArgs "" "out/meta.json" ""
      "lipsync-2" "bounce" (-1) (-1)).1
      = RunOutcome.returned "out/translated_deadbeef.mp4" := by decide
  refine ⟨by decide, ?_⟩
  intro h
  rcases h with ⟨e, he⟩ | he | ⟨code, body, he⟩ | ⟨jid, st, he⟩
    | ⟨p, bs, he, hmem, hne⟩
  · rw [h1] at he
    exact absurd he (by simp)
  · rw [h1] at he
    exact absurd he (by decide)
  · rw [h1] at he
    simp only [RunOutcome.returned.injEq] at he
    have hd := congrArg String.data he
    simp only [String.data_append] at hd
    simp [List.cons_append] at hd
  · rw [h1] at he
    simp only [RunOutcome.returned.injEq] at he
    have hd := congrArg String.data he
    simp only [String.data_append] at hd
    simp [List.cons_append] at hd
  · rw [h1] at he
    simp only [RunOutcome.returned.injEq] at he
    subst he
    have heq : dirName "out/meta.json" ++ "/" ++ outName sampleEnvEmptyOutput.uuid8
        = "out/translated_deadbeef.mp4" := by decide
    have huniq := run_writeFile_at_output_path_unique sampleEnvEmptyOutput
      sampleArgs "" "out/meta.json" "" "lipsync-2" "bounce" (-1) (-1)
      [1, 2, 3] "hello there" " hola amigo " [4, 5, 6]
      (Json.str "https://uguu.se/f.mp3") "job-1" "https://cdn.example/out.mp4" []
      rfl rfl rfl rfl rfl rfl rfl rfl rfl rfl (by decide) (by decide) (by decide)
    rw [heq] at huniq
    exact hne (huniq bs hmem)

/-- C1 amended: an invocation with a reachable video URL (and, under
valid credentials, with every provider answer modelled by the oracle)
that completes — i.e. whose polling loop is not stuck forever — either
raises one of the defined provider error kinds, or returns one of the
three defined failure strings (upload failure, job-submission error,
job failure), or returns a path at which the run itself wrote the
downloaded output artifact; that file is non-empty whenever the
provider's artifact body is non-empty (the counterexample above shows
the non-emptiness qualifier cannot be unconditional).  No completion
silently omits an output. -/
theorem C1_every_completion_returns_path_or_failure_or_raises (env : Env)
    (args : BabelfishArgs) (sl ojp vid lm sm : String) (ss se : Rat)
    (hreach : ∃ bs, env.fetchVideo = some bs)
    (hnz : ∀ bs, env.fetchOutput = some bs → bs ≠ [])
    (hterm : (translateVideo env args sl ojp vid lm sm ss se).1 ≠ RunOutcome.hang) :
    (∃ e, (translateVideo env args sl ojp vid lm sm ss se).1
        = RunOutcome.raised e) ∨
    (translateVideo env args sl ojp vid lm sm ss se).1
      = RunOutcome.returned "Generated speech upload failed" ∨
    (∃ (code : Nat) (body : String),
      (translateVideo env args sl ojp vid lm sm ss se).1
        = RunOutcome.returned ("Sync error – " ++ toString code ++ ": " ++ body)) ∨
    (∃ jid st, (translateVideo env args sl ojp vid lm sm ss se).1
        = RunOutcome.returned ("Lipsync job " ++ jid ++ " failed: " ++ st)) ∨
    (∃ p bs,
      (translateVideo env args sl ojp vid lm sm ss se).1 = RunOutcome.returned p ∧
      Event.writeFile p bs ∈ (translateVideo env args sl ojp vid lm sm ss se).2 ∧
      bs ≠ []) := by
  obtain ⟨fv, ha, tr, ch, tb, up, cj, polls, og, fo, u6, u8, now⟩ := env
  simp only at hreach hnz hterm ⊢
  cases fv with
  | none => rcases hreach with ⟨bs, hbs⟩; simp at hbs
  | some bv =>
  cases ha with
  | false =>
    exact Or.inl ⟨PErr.extraction,
      by simp [translateVideo, download, extractAudio, overrideArgs]⟩
  | true =>
  cases tr with
  | none =>
    exact Or.inl ⟨PErr.transcription,
      by simp [translateVideo, download, extractAudio, tts, overrideArgs]⟩
  | some t =>
  cases ch with
  | none =>
    exact Or.inl ⟨PErr.translation,
      by simp [translateVideo, download, extractAudio, tts, overrideArgs]⟩
  | some c =>
  cases tb with
  | none =>
    exact Or.inl ⟨PErr.synthesis,
      by simp [translateVideo, download, extractAudio, tts, overrideArgs]⟩
  | some ab =>
  rcases hu : uploadToUguu up with _ | u
  · exact Or.inr (Or.inl
      (by simp [translateVideo, download, extractAudio, tts, overrideArgs, hu]))
  · cases cj with
    | error e =>
      rcases e with ⟨code, body⟩
      exact Or.inr (Or.inr (Or.inl ⟨code, body,
        by simp [translateVideo, download, extractAudio, tts, overrideArgs, hu]⟩))
    | ok jid =>
    rcases hpr : pollRun args.poll_interval jid polls with ⟨po, evP⟩
    cases po with
    | hang =>
      exact absurd
        (by simp [translateVideo, download, extractAudio, tts, overrideArgs, hu,
          hpr])
        hterm
    | err pc pb =>
      exact Or.inl ⟨PErr.syncApi pc pb,
        by simp [translateVideo, download, extractAudio, tts, overrideArgs, hu,
          hpr]⟩
    | terminal status =>
    by_cases hst : status = "COMPLETED"
    · subst hst
      cases og with
      | error e =>
        rcases e with ⟨gc, gb⟩
        exact Or.inl ⟨PErr.syncApi gc gb,
          by simp [translateVideo, download, extractAudio, tts, overrideArgs, hu,
            hpr]⟩
      | ok ourl =>
      cases fo with
      | none =>
        exact Or.inl ⟨PErr.transfer ourl,
          by simp [translateVideo, download, extractAudio, tts, overrideArgs, hu,
            hpr]⟩
      | some obs =>
      have hobs : obs ≠ [] := hnz obs rfl
      by_cases hojp : ojp = ""
      · subst hojp
        refine Or.inr (Or.inr (Or.inr (Or.inr
          ⟨(overrideArgs args sl "" vid lm sm ss se).tmp_dir ++ "/" ++ outName u8,
           obs, ?_, ?_, hobs⟩)))
        · simp [translateVideo, download, extractAudio, tts, overrideArgs, hu, hpr]
        · simp [translateVideo, download, extractAudio, tts, overrideArgs, hu, hpr,
            List.mem_append]
      · refine Or.inr (Or.inr (Or.inr (Or.inr
          ⟨dirName ojp ++ "/" ++ outName u8, obs, ?_, ?_, hobs⟩)))
        · simp [translateVideo, download, extractAudio, tts, overrideArgs, hu, hpr,
            bne_iff_ne, hojp]
        · simp [translateVideo, download, extractAudio, tts, overrideArgs, hu, hpr,
            bne_iff_ne, hojp, List.mem_append]
    · refine Or.inr (Or.inr (Or.inr (Or.inl ⟨jid, status, ?_⟩)))
      simp [translateVideo, download, extractAudio, tts, overrideArgs, hu, hpr,
        bne_iff_ne, hst]

/-- Witness for C1: a concrete completing run falls into the stated
disjunction (here: it returns the path of the downloaded output
artifact, written with non-empty content). -/
theorem C1_witness :
    (∃ e, (translateVideo sampleEnvOk sampleArgs "" "out/meta.json" "" "lipsync-2"
        "bounce" (-1) (-1)).1 = RunOutcome.raised e) ∨
    (translateVideo sampleEnvOk sampleArgs "" "out/meta.json" "" "lipsync-2"
        "bounce" (-1) (-1)).1
      = RunOutcome.returned "Generated speech upload failed" ∨
    (∃ (code : Nat) (body : String),
      (translateVideo sampleEnvOk sampleArgs "" "out/meta.json" "" "lipsync-2"
          "bounce" (-1) (-1)).1
        = RunOutcome.returned ("Sync error – " ++ toString code ++ ": " ++ body)) ∨
    (∃ jid st, (translateVideo sampleEnvOk sampleArgs "" "out/meta.json" ""
        "lipsync-2" "bounce" (-1) (-1)).1
        = RunOutcome.returned ("Lipsync job " ++ jid ++ " failed: " ++ st)) ∨
    (∃ p bs,
      (translateVideo sampleEnvOk sampleArgs "" "out/meta.json" "" "lipsync-2"
          "bounce" (-1) (-1)).1 = RunOutcome.returned p ∧
      Event.writeFile p bs ∈ (translateVideo sampleEnvOk sampleArgs ""
          "out/meta.json" "" "lipsync-2" "bounce" (-1) (-1)).2 ∧
      bs ≠ []) :=
  C1_every_completion_returns_path_or_failure_or_raises sampleEnvOk sampleArgs
    "" "out/meta.json" "" "lipsync-2" "bounce" (-1) (-1)
    ⟨[1, 2, 3], rfl⟩
    (fun bs h => by
      simp only [sampleEnvOk] at h
      simp only [Option.some.injEq] at h
      subst h
      decide)
    (by decide)

end SyncTranslate
